import Mathlib

/-!
# Verification of the oral-scan analysis server

A shallow embedding of the repository's server logic:

* the response parser of `POST /api/analyze` (server/index.ts): three
  regular-expression scrapes `CONFIDENCE_LEVEL:\s*(\d+)%`,
  `RISK_LEVEL:\s*(LOW|MEDIUM|HIGH)`, `ANALYSIS:\s*([\s\S]*)`, all with the
  `i` flag, applied with JavaScript `String.prototype.match` first-match
  semantics;
* the prompt composer of the same handler (the template literal building
  `patientHistory` and the fixed instruction text around it);
* the zod schema `histopathologicalSchema` and the handler's pre-model
  control flow;
* the auth middleware `authenticateToken` (server/middleware/auth.ts);
* the scan-creation endpoint's status writes and the scan/patient route
  handlers (server/routes/scans.ts and the patients router).
-/

namespace OralScan

/-! ## Response parser -/

/-- JavaScript `\s` whitespace class (the members that can occur in the
strings this server handles: space, tab, newline, carriage return,
vertical tab, form feed, NBSP). -/
def jsWhitespace (c : Char) : Bool :=
  c = ' ' || c = '\t' || c = '\n' || c = '\r' || c = '\x0b' || c = '\x0c' || c = '\xa0'

/-- Case-insensitive match of a literal pattern at the head of the input;
returns the remaining input on success.  Models a case-folded literal in a
regex with the `i` flag. -/
def matchLitCI : List Char → List Char → Option (List Char)
  | [], rest => some rest
  | _ :: _, [] => none
  | p :: ps, c :: cs => if p.toLower = c.toLower then matchLitCI ps cs else none

/-- JavaScript `String.prototype.match` with a non-global regex tries the
pattern at each position left to right; the first position where it
succeeds wins.  `f` is the attempt-at-one-position function. -/
def firstMatch {α : Type} (f : List Char → Option α) : List Char → Option α
  | [] => f []
  | c :: cs =>
    match f (c :: cs) with
    | some x => some x
    | none => firstMatch f cs

/-- `parseInt` on a (nonempty) digit capture. -/
def digitsToNat (ds : List Char) : Nat :=
  ds.foldl (fun n c => 10 * n + (c.toNat - '0'.toNat)) 0

/-- One attempt of `/CONFIDENCE_LEVEL:\s*(\d+)%/i` at the current position:
the literal, then greedy whitespace, then a nonempty digit run (the capture),
then `%`.  (`\s` and `\d` are disjoint and `%` is not a digit, so the greedy
scan needs no backtracking.) -/
def confidenceAt (s : List Char) : Option (List Char) :=
  match matchLitCI "CONFIDENCE_LEVEL:".data s with
  | none => none
  | some r =>
    let r1 := r.dropWhile jsWhitespace
    let ds := r1.takeWhile Char.isDigit
    if ds.isEmpty then none
    else
      match r1.drop ds.length with
      | '%' :: _ => some ds
      | _ => none

/-- One attempt of `/RISK_LEVEL:\s*(LOW|MEDIUM|HIGH)/i`: alternatives tried
in order, each case-insensitively; the capture is the matched source text
(original case). -/
def riskAt (s : List Char) : Option (List Char) :=
  match matchLitCI "RISK_LEVEL:".data s with
  | none => none
  | some r =>
    let r1 := r.dropWhile jsWhitespace
    if (matchLitCI "LOW".data r1).isSome then some (r1.take 3)
    else if (matchLitCI "MEDIUM".data r1).isSome then some (r1.take 6)
    else if (matchLitCI "HIGH".data r1).isSome then some (r1.take 4)
    else none

/-- One attempt of `/ANALYSIS:\s*([\s\S]*)/i`: the literal, greedy
whitespace, then the capture is everything to the end of the text. -/
def analysisAt (s : List Char) : Option (List Char) :=
  match matchLitCI "ANALYSIS:".data s with
  | none => none
  | some r => some (r.dropWhile jsWhitespace)

/-- JavaScript `String.prototype.trim`. -/
def jsTrim (s : List Char) : List Char :=
  ((s.dropWhile jsWhitespace).reverse.dropWhile jsWhitespace).reverse

/-- The parsed triple the handler extracts from the model's response text. -/
structure ParsedAnalysis where
  confidence : Nat
  risk : String
  analysis : String
  deriving Repr, DecidableEq

/-- The response-parsing block of `POST /api/analyze`:

```js
const confidenceMatch = analysis.match(/CONFIDENCE_LEVEL:\s*(\d+)%/i);
const riskMatch = analysis.match(/RISK_LEVEL:\s*(LOW|MEDIUM|HIGH)/i);
const analysisMatch = analysis.match(/ANALYSIS:\s*([\s\S]*)/i);
const confidence = confidenceMatch ? parseInt(confidenceMatch[1]) : 0;
const risk = riskMatch ? riskMatch[1].toUpperCase() : "UNKNOWN";
const detailedAnalysis = analysisMatch ? analysisMatch[1].trim() : analysis;
```
-/
def parseAnalysis (analysis : String) : ParsedAnalysis :=
  let confidence :=
    match firstMatch confidenceAt analysis.data with
    | some ds => digitsToNat ds
    | none => 0
  let risk :=
    match firstMatch riskAt analysis.data with
    | some cap => String.mk (cap.map Char.toUpper)
    | none => "UNKNOWN"
  let detailedAnalysis :=
    match firstMatch analysisAt analysis.data with
    | some cap => String.mk (jsTrim cap)
    | none => analysis
  { confidence := confidence, risk := risk, analysis := detailedAnalysis }

/-- Whether the text contains an occurrence of the literal `lit`,
case-insensitively (whether the bare-sentinel regex would match). -/
def containsCI (lit : String) (s : String) : Bool :=
  (firstMatch (matchLitCI lit.data) s.data).isSome

/-! ## Auth middleware -/

/-- Outcome of the auth middleware: either a rejection (`res.status(status)`
with a JSON error message) or acceptance, attaching the `req.user` object.
Because the downstream handlers access a property (`id`) that the middleware
never sets, the attached object is modelled as its JavaScript property list
(key-value pairs), so absent properties read as `none`. -/
inductive AuthResult where
  | reject (status : Nat) (error : String)
  | accept (user : List (String × String))
  deriving Repr, DecidableEq

/-- JavaScript property access `obj.key` on the attached user object:
the value if the key is present, `undefined` (`none`) otherwise. -/
def getProp (u : List (String × String)) (key : String) : Option String :=
  (u.find? (fun kv => kv.1 = key)).map (fun kv => kv.2)

/-- JavaScript `str.split(sep)` for a single-character separator:
`"".split(sep)` is `[""]`, and adjacent separators yield empty pieces. -/
def splitOnChar (sep : Char) : List Char → List (List Char)
  | [] => [[]]
  | c :: cs =>
    if c = sep then [] :: splitOnChar sep cs
    else
      match splitOnChar sep cs with
      | [] => [[c]]
      | h :: t => (c :: h) :: t

/-- The auth middleware `authenticateToken` of server/middleware/auth.ts.

`verify` abstracts `jwt.verify(token, JWT_SECRET)`: `some (userId, email)`
on a valid signature, `none` when verification throws.  `userExists`
abstracts `prisma.user.findUnique` returning a row or not.  `authHeader`
is the Authorization request header.

```js
const token = authHeader && authHeader.split(sp)[1];
if (!token) return res.status(401).json({ error: "Authentication required" });
if (token === "dev-token") { req.user = { userId: "1", email: "test@example.com" }; return next(); }
try {
  const decoded = jwt.verify(token, JWT_SECRET);
  const user = await prisma.user.findUnique({ where: { id: decoded.userId } });
  if (!user) return res.status(401).json({ error: "User not found" });
  req.user = decoded; next();
} catch { return res.status(401).json({ error: "Invalid token" }); }
```
-/
def authenticateToken (verify : String → Option (String × String))
    (userExists : String → Bool) (authHeader : Option String) : AuthResult :=
  let token : Option String :=
    authHeader.bind (fun h => ((splitOnChar ' ' h.data).get? 1).map String.mk)
  match token with
  | none => .reject 401 "Authentication required"
  | some t =>
    if t = "" then .reject 401 "Authentication required"
    else if t = "dev-token" then
      .accept [("userId", "1"), ("email", "test@example.com")]
    else
      match verify t with
      | none => .reject 401 "Invalid token"
      | some (userId, email) =>
        if userExists userId then .accept [("userId", userId), ("email", email)]
        else .reject 401 "User not found"

/-- The server process carries a NODE_ENV flag (server/index.ts reads it);
the auth middleware runs inside that process. -/
structure ServerEnv where
  nodeEnvProduction : Bool
  deriving Repr, DecidableEq

/-- The auth middleware as it runs in a server process with environment
`env`.  The source of `authenticateToken` (server/middleware/auth.ts) never
reads NODE_ENV, so the result does not depend on `env`. -/
def authenticateTokenInEnv (env : ServerEnv)
    (verify : String → Option (String × String))
    (userExists : String → Bool) (authHeader : Option String) : AuthResult :=
  authenticateToken verify userExists authHeader

/-! ## Scans routes -/

/-- Outcome of the guard at the top of the scans route handlers
(server/routes/scans.ts): either the early 401, or the handler proceeds
with the extracted user id. -/
inductive HandlerOutcome where
  | earlyError (status : Nat) (error : String)
  | proceed (userId : String)
  deriving Repr, DecidableEq

/-- Guard of `GET /api/scans` (and, identically, of the patients router):

```js
const userId = req.user?.id;
if (!userId) return res.status(401).json({ error: "Not authenticated" });
```

`user` is `req.user`: `none` when no middleware attached a user, otherwise
the attached property list.  Accessing the absent property `id` yields
`undefined`; `!userId` is also true for an empty string. -/
def scansGetGuard (user : Option (List (String × String))) : HandlerOutcome :=
  match user.bind (fun u => getProp u "id") with
  | none => .earlyError 401 "Not authenticated"
  | some uid => if uid = "" then .earlyError 401 "Not authenticated" else .proceed uid

/-- Guard of `POST /api/scans`, byte-for-byte the same check as the list
handler. -/
def scansCreateGuard (user : Option (List (String × String))) : HandlerOutcome :=
  scansGetGuard user

/-- Status values the scan-creation endpoint writes. -/
inductive ScanStatus where
  | processing
  | completed
  | failed
  deriving Repr, DecidableEq

def ScanStatus.isTerminal : ScanStatus → Bool
  | .processing => false
  | .completed => true
  | .failed => true

/-- The sequence of values the `status` column of one Scan row takes under
`POST /api/scans` (server/routes/scans.ts): the row is created with
status PROCESSING; then the background chain
`analyzeImage(imageData).then(update COMPLETED).catch(update FAILED)` runs.
`analyzeOk` is whether `analyzeImage` resolves; `updateOk s` is whether the
`prisma.scan.update` writing status `s` commits rather than throws.  If the
COMPLETED write throws, the `.catch` attached after the `.then` receives
that error and attempts the FAILED write; a failing FAILED write commits
nothing (unhandled rejection).  No other code in the repository writes to a
scan's status. -/
def scanStatusHistory (analyzeOk : Bool) (updateOk : ScanStatus → Bool) : List ScanStatus :=
  ScanStatus.processing ::
    (if analyzeOk then
      (if updateOk .completed then [.completed]
       else if updateOk .failed then [.failed]
       else [])
     else
      (if updateOk .failed then [.failed] else []))

/-! ## Patients routes -/

/-- Row shape of the Patient table as written by the patients router. -/
structure PatientFields where
  name : String
  age : Int
  gender : String
  contactNumber : String
  email : String
  smoking : Bool
  tobacco : Bool
  panMasala : Bool
  medicalHistory : String
  deriving Repr, DecidableEq

structure Patient where
  id : String
  doctorId : String
  fields : PatientFields
  deriving Repr, DecidableEq

/-- The `where: { id, doctorId: userId }` filter of the update and delete
handlers ("Ensure the patient belongs to the user"). -/
def matchesWhere (id doctorId : String) (p : Patient) : Bool :=
  p.id = id && p.doctorId = doctorId

/-- `prisma.patient.update({ where: { id, doctorId }, data })` as used by
`PUT /api/patients/:id`: rewrites the matching row; when no row matches
both the id and the owning doctor, Prisma throws (P2025), which the handler
catches and turns into a 500 — modelled as `none`, with the table
untouched. -/
def updatePatient (db : List Patient) (id doctorId : String) (data : PatientFields) :
    Option (List Patient) :=
  if db.any (matchesWhere id doctorId) then
    some (db.map (fun p => if matchesWhere id doctorId p then { p with fields := data } else p))
  else none

/-- `prisma.patient.delete({ where: { id, doctorId } })` as used by
`DELETE /api/patients/:id`: removes the matching row, or throws (`none`)
when no row matches both filters. -/
def deletePatient (db : List Patient) (id doctorId : String) : Option (List Patient) :=
  if db.any (matchesWhere id doctorId) then
    some (db.filter (fun p => !(matchesWhere id doctorId p)))
  else none

/-! ## Patient-history payload and the zod schema

The `POST /api/analyze` body field `histopathologicalData` before any
validation: every schema field may be absent.  Field base types follow the
schema (strings, string arrays, a boolean); payloads that are not even of
this shape are outside the model. -/

structure AdditionalPayload where
  lesionLocation : Option String := none
  lesionDuration : Option String := none
  lesionGrowthRate : Option String := none
  previousOralConditions : Option (List String) := none
  medications : Option (List String) := none
  alcoholConsumption : Option String := none
  occupation : Option String := none
  dietaryHabits : Option (List String) := none
  oralHygiene : Option String := none
  recentDentalWork : Option Bool := none
  lastDentalVisit : Option String := none
  deriving Repr, DecidableEq

structure HistoPayload where
  age : Option String := none
  tobacco : Option String := none
  smoking : Option String := none
  panMasala : Option String := none
  symptomDuration : Option String := none
  painLevel : Option String := none
  difficultySwallowing : Option String := none
  weightLoss : Option String := none
  familyHistory : Option String := none
  immuneCompromised : Option String := none
  persistentSoreThroat : Option String := none
  voiceChanges : Option String := none
  lumpsInNeck : Option String := none
  frequentMouthSores : Option String := none
  poorDentalHygiene : Option String := none
  additionalData : Option AdditionalPayload := none
  deriving Repr, DecidableEq

/-- Issues of a required `z.string()` field: absent is an issue at `path`. -/
def reqStringIssue (path : String) : Option String → List String
  | none => [path]
  | some _ => []

/-- Issues of a required `z.enum([...])` field. -/
def reqEnumIssue (path : String) (allowed : List String) : Option String → List String
  | none => [path]
  | some v => if v ∈ allowed then [] else [path]

/-- Issues of a `z.enum([...]).optional()` field. -/
def optEnumIssue (path : String) (allowed : List String) : Option String → List String
  | none => []
  | some v => if v ∈ allowed then [] else [path]

/-- Validation issues of `additionalPatientDataSchema` (paths of offending
fields, in declaration order).  `z.string().optional()`,
`z.array(z.string()).optional()` and `z.boolean().optional()` fields accept
any value of their base type, so they contribute no issues here. -/
def additionalIssues (a : AdditionalPayload) : List String :=
  optEnumIssue "additionalData.lesionLocation"
      ["Tongue", "Buccal Mucosa", "Floor of Mouth", "Hard Palate", "Soft Palate",
        "Gingiva", "Lip"] a.lesionLocation ++
  optEnumIssue "additionalData.lesionGrowthRate" ["Slow", "Moderate", "Rapid"]
      a.lesionGrowthRate ++
  optEnumIssue "additionalData.alcoholConsumption" ["None", "Occasional", "Moderate", "Heavy"]
      a.alcoholConsumption ++
  optEnumIssue "additionalData.oralHygiene" ["Poor", "Fair", "Good", "Excellent"] a.oralHygiene

/-- Validation issues of `histopathologicalSchema` (server/index.ts), in
declaration order: `age` and `symptomDuration` are required strings,
`tobacco`, `smoking`, `panMasala` required enums, the rest optional
enums, plus the nested optional `additionalData`. -/
def schemaIssues (h : HistoPayload) : List String :=
  reqStringIssue "age" h.age ++
  reqEnumIssue "tobacco" ["Yes", "No", "Former"] h.tobacco ++
  reqEnumIssue "smoking" ["Yes", "No", "Former"] h.smoking ++
  reqEnumIssue "panMasala" ["Yes", "No", "Former"] h.panMasala ++
  reqStringIssue "symptomDuration" h.symptomDuration ++
  optEnumIssue "painLevel" ["None", "Mild", "Moderate", "Severe"] h.painLevel ++
  optEnumIssue "difficultySwallowing" ["Yes", "No"] h.difficultySwallowing ++
  optEnumIssue "weightLoss" ["Yes", "No"] h.weightLoss ++
  optEnumIssue "familyHistory" ["Yes", "No", "Unknown"] h.familyHistory ++
  optEnumIssue "immuneCompromised" ["Yes", "No", "Unknown"] h.immuneCompromised ++
  optEnumIssue "persistentSoreThroat" ["Yes", "No"] h.persistentSoreThroat ++
  optEnumIssue "voiceChanges" ["Yes", "No"] h.voiceChanges ++
  optEnumIssue "lumpsInNeck" ["Yes", "No"] h.lumpsInNeck ++
  optEnumIssue "frequentMouthSores" ["Yes", "No"] h.frequentMouthSores ++
  optEnumIssue "poorDentalHygiene" ["Yes", "No"] h.poorDentalHygiene ++
  (match h.additionalData with
   | none => []
   | some a => additionalIssues a)

/-- `histopathologicalSchema.parse`: success, or a ZodError whose first
issue identifies the offending field path. -/
def histopathologicalSchemaCheck (h : HistoPayload) : Except String Unit :=
  match schemaIssues h with
  | [] => .ok ()
  | p :: _ => .error p

/-! ## Prompt composer

The `patientHistory` template literal of `POST /api/analyze`
(server/index.ts).  The template is a concatenation of fixed text and
interpolations; it is embedded as the concatenation (`concatStrs`) of its
chunks in source order.  Each conditional line
`${cond ? label + value : ""}` is one chunk (`optLine`/`arrLine`/`boolLine`),
followed by the template's own newline as the next chunk — so an absent
field leaves its newline behind. -/

/-- JavaScript template interpolation of a possibly-undefined string:
`undefined` prints as the literal text `undefined`. -/
def jsInterp : Option String → String
  | none => "undefined"
  | some s => s

/-- `${field ? label + field : ""}` — truthiness: present and nonempty. -/
def optLine (label : String) : Option String → String
  | none => ""
  | some v => if v = "" then "" else label ++ v

/-- `${field?.length ? label + field.join(", ") : ""}`. -/
def arrLine (label : String) : Option (List String) → String
  | none => ""
  | some l => if l.isEmpty then "" else label ++ String.intercalate ", " l

/-- `${field !== undefined ? label + (field ? "Yes" : "No") : ""}`. -/
def boolLine (label : String) : Option Bool → String
  | none => ""
  | some b => label ++ (if b then "Yes" else "No")

/-- Concatenation of the chunks of a template literal. -/
def concatStrs : List String → String
  | [] => ""
  | s :: rest => s ++ concatStrs rest

/-- Chunks of the inner `${additionalData ? ... : ""}` template, in source
order. -/
def additionalChunks (a : AdditionalPayload) : List String :=
  ["\nAdditional Information:\n",
   optLine "- Lesion Location: " a.lesionLocation, "\n",
   optLine "- Lesion Duration: " a.lesionDuration, "\n",
   optLine "- Lesion Growth Rate: " a.lesionGrowthRate, "\n",
   arrLine "- Previous Oral Conditions: " a.previousOralConditions, "\n",
   arrLine "- Current Medications: " a.medications, "\n",
   optLine "- Alcohol Consumption: " a.alcoholConsumption, "\n",
   optLine "- Occupation: " a.occupation, "\n",
   arrLine "- Dietary Habits: " a.dietaryHabits, "\n",
   optLine "- Oral Hygiene: " a.oralHygiene, "\n",
   boolLine "- Recent Dental Work: " a.recentDentalWork, "\n",
   optLine "- Last Dental Visit: " a.lastDentalVisit, "\n"]

def additionalBlockStr : Option AdditionalPayload → String
  | none => ""
  | some a => concatStrs (additionalChunks a)

/-- Chunks of the outer `patientHistory` template, in source order. -/
def historyChunks (h : HistoPayload) : List String :=
  ["\nPatient Information:\nPrimary Risk Factors:\n",
   "- Age: ", jsInterp h.age, "\n",
   "- Tobacco Use: ", jsInterp h.tobacco, "\n",
   "- Smoking History: ", jsInterp h.smoking, "\n",
   "- Pan Masala/Areca Nut Use: ", jsInterp h.panMasala, "\n",
   "- Duration of Symptoms: ", jsInterp h.symptomDuration,
   "\n\nClinical Symptoms:\n",
   optLine "- Pain Level: " h.painLevel, "\n",
   optLine "- Difficulty Swallowing: " h.difficultySwallowing, "\n",
   optLine "- Unexplained Weight Loss: " h.weightLoss, "\n",
   optLine "- Persistent Sore Throat: " h.persistentSoreThroat, "\n",
   optLine "- Voice Changes: " h.voiceChanges, "\n",
   optLine "- Lumps in Neck: " h.lumpsInNeck, "\n",
   "\nMedical History:\n",
   optLine "- Family History of Oral Cancer: " h.familyHistory, "\n",
   optLine "- Compromised Immune System: " h.immuneCompromised, "\n",
   optLine "- Frequent Mouth Sores: " h.frequentMouthSores, "\n",
   optLine "- Poor Dental Hygiene: " h.poorDentalHygiene, "\n",
   "\n",
   additionalBlockStr h.additionalData]

def patientHistoryFor (h : HistoPayload) : String :=
  concatStrs (historyChunks h)

/-- `let patientHistory = ""` overwritten inside
`if (histopathologicalData) { ... }`. -/
def patientHistory : Option HistoPayload → String
  | none => ""
  | some h => patientHistoryFor h

/-- Fixed instruction text preceding `${patientHistory}` in the prompt. -/
def promptIntro : String :=
  "You are an expert oral pathologist with extensive experience in diagnosing oral cancers and precancerous lesions. Analyze this oral cavity image and provide a detailed clinical assessment. Use your expertise to evaluate the visual characteristics and correlate them with the patient\x27s history.\n\n"

/-- Fixed instruction text following `${patientHistory}` in the prompt. -/
def promptOutro : String :=
  "\n\nPlease provide a systematic analysis in the following format:\n\n1. VISUAL EXAMINATION:\n   - Describe the lesion\x27s appearance (color, texture, borders)\n   - Location and extent\n   - Size and shape characteristics\n   - Surface characteristics\n   - Any visible vascularity or bleeding\n   - Surrounding tissue condition\n\n2. CLINICAL CORRELATION:\n   - Analyze how patient risk factors align with visual findings\n   - Evaluate symptom duration and progression\n   - Consider lifestyle factors\x27 impact\n   - Assess systemic health influences\n\n3. DIFFERENTIAL DIAGNOSIS:\n   - List potential diagnoses in order of likelihood\n   - Include specific ICD-10 codes\n   - Justify each possibility based on findings\n\n4. RISK STRATIFICATION:\n   - Evaluate malignancy risk (Low/Medium/High)\n   - Provide confidence level (0-100%)\n   - List specific concerning features\n   - Identify protective factors\n\n5. RECOMMENDATIONS:\n   - Immediate next steps\n   - Required investigations\n   - Specialist referrals needed\n   - Timeline for interventions\n\n6. MANAGEMENT PLAN:\n   - Short-term interventions\n   - Long-term monitoring\n   - Lifestyle modifications\n   - Patient education points\n\n7. CULTURAL CONSIDERATIONS:\n   - Specific dietary recommendations\n   - Cultural practice modifications\n   - Family involvement suggestions\n   - Community support resources\n\nFormat your key findings at the start as:\nCONFIDENCE_LEVEL: (Specify 0-100%)\nRISK_LEVEL: (LOW/MEDIUM/HIGH)\nANALYSIS: (Detailed analysis following the above structure)\n\nBe direct and specific in your assessment. If you see concerning features, state them clearly. If you\x27re uncertain about aspects, explain why. Focus on actionable insights and clear next steps."

/-- The full text content of the model request. -/
def promptText (payload : Option HistoPayload) : String :=
  promptIntro ++ patientHistory payload ++ promptOutro

/-! ## The analyze handler before the model call -/

/-- What `POST /api/analyze` does before any model call: the only early
rejection is the missing-image 400.  `histopathologicalSchema` is declared
in the same file but the handler never invokes it. -/
inductive AnalyzePre where
  | badRequest (status : Nat) (error : String)
  | callModel (prompt : String)
  deriving Repr, DecidableEq

def AnalyzePre.isBadRequest : AnalyzePre → Bool
  | .badRequest _ _ => true
  | .callModel _ => false

/-- Pre-model control flow of the handler:

```js
const { imageBase64, histopathologicalData } = req.body;
if (!imageBase64) return res.status(400).json({ error: "Image data is required" });
let patientHistory = "";
if (histopathologicalData) { ... }
const message = await anthropic.messages.create({ ... });
```
-/
def analyzeHandlerPre (imageBase64 : Option String) (histo : Option HistoPayload) : AnalyzePre :=
  match imageBase64 with
  | none => .badRequest 400 "Image data is required"
  | some img =>
    if img = "" then .badRequest 400 "Image data is required"
    else .callModel (promptText histo)

/-- A structurally invalid payload: `tobacco` is outside its enum. -/
def invalidHistory : HistoPayload :=
  { age := some "55", tobacco := some "Maybe", smoking := some "No",
    panMasala := some "No", symptomDuration := some "3 months" }

/-- A valid payload with every optional field absent. -/
def minimalHistory : HistoPayload :=
  { age := some "45", tobacco := some "No", smoking := some "No",
    panMasala := some "No", symptomDuration := some "2 weeks" }

/-- A valid payload with every field present (additional data included). -/
def fullHistory : HistoPayload :=
  { age := some "60", tobacco := some "Yes", smoking := some "Former",
    panMasala := some "No", symptomDuration := some "6 months",
    painLevel := some "Mild", difficultySwallowing := some "Yes",
    weightLoss := some "No", familyHistory := some "Unknown",
    immuneCompromised := some "No", persistentSoreThroat := some "Yes",
    voiceChanges := some "No", lumpsInNeck := some "No",
    frequentMouthSores := some "Yes", poorDentalHygiene := some "No",
    additionalData := some
      { lesionLocation := some "Tongue", lesionDuration := some "2 months",
        lesionGrowthRate := some "Slow", previousOralConditions := some ["Leukoplakia"],
        medications := some ["Aspirin"], alcoholConsumption := some "Occasional",
        occupation := some "Farmer", dietaryHabits := some ["Spicy food"],
        oralHygiene := some "Fair", recentDentalWork := some true,
        lastDentalVisit := some "2023" } }

/-- Substring containment on strings (at the character level). -/
def SubStr (a b : String) : Prop := a.data <:+: b.data

instance (a b : String) : Decidable (SubStr a b) :=
  inferInstanceAs (Decidable (a.data <:+: b.data))

/-! ## Helper lemmas -/

lemma firstMatch_none_of_lit_none {α : Type} (lit : List Char) (f : List Char → Option α)
    (hf : ∀ p, matchLitCI lit p = none → f p = none) :
    ∀ s : List Char, firstMatch (matchLitCI lit) s = none → firstMatch f s = none
  | [], h => by
    simp only [firstMatch] at h ⊢
    exact hf [] h
  | c :: cs, h => by
    simp only [firstMatch] at h ⊢
    cases hm : matchLitCI lit (c :: cs) with
    | some x => rw [hm] at h; exact absurd h (by simp)
    | none =>
      rw [hm] at h
      rw [hf (c :: cs) hm]
      exact firstMatch_none_of_lit_none lit f hf cs h

lemma substr_refl (a : String) : SubStr a a :=
  ⟨[], [], by simp⟩

lemma substr_appL (c : String) {a b : String} (h : SubStr a b) : SubStr a (c ++ b) := by
  obtain ⟨s, t, hst⟩ := h
  exact ⟨c.data ++ s, t, by rw [String.data_append, ← hst]; simp⟩

lemma substr_appR (c : String) {a b : String} (h : SubStr a b) : SubStr a (b ++ c) := by
  obtain ⟨s, t, hst⟩ := h
  exact ⟨s, t ++ c.data, by rw [String.data_append, ← hst]; simp⟩

lemma substr_trans {a b c : String} (h1 : SubStr a b) (h2 : SubStr b c) : SubStr a c := by
  obtain ⟨s1, t1, hst1⟩ := h1
  obtain ⟨s2, t2, hst2⟩ := h2
  exact ⟨s2 ++ s1, t1 ++ t2, by rw [← hst2, ← hst1]; simp⟩

lemma substr_of_mem {a : String} : ∀ {l : List String}, a ∈ l → SubStr a (concatStrs l)
  | [], h => absurd h (by simp)
  | c :: rest, h => by
    rcases List.mem_cons.mp h with h1 | h2
    · subst h1
      exact substr_appR (concatStrs rest) (substr_refl a)
    · exact substr_appL c (substr_of_mem h2)

lemma strAppend_assoc (a b c : String) : a ++ b ++ c = a ++ (b ++ c) := by
  apply String.ext
  simp [String.data_append]

lemma concatStrs_append : ∀ l1 l2 : List String,
    concatStrs (l1 ++ l2) = concatStrs l1 ++ concatStrs l2
  | [], l2 => by simp [concatStrs, String.empty_append]
  | s :: rest, l2 => by
    show s ++ concatStrs (rest ++ l2) = (s ++ concatStrs rest) ++ concatStrs l2
    rw [concatStrs_append rest l2, strAppend_assoc]

lemma substr_concat_middle (pre mid post : List String) :
    SubStr (concatStrs mid) (concatStrs (pre ++ mid ++ post)) := by
  rw [concatStrs_append, concatStrs_append]
  exact substr_appR _ (substr_appL _ (substr_refl _))

lemma substr_pair (pre : List String) {l : List String} {a b : String} {post : List String}
    (h : l = pre ++ a :: b :: post) : SubStr (a ++ b) (concatStrs l) := by
  have h2 : l = pre ++ [a, b] ++ post := by rw [h]; simp
  have h3 : concatStrs [a, b] = a ++ b := by
    show a ++ (b ++ "") = a ++ b
    rw [String.append_empty]
  rw [h2]
  rw [← h3]
  exact substr_concat_middle pre [a, b] post

lemma substr_triple (pre : List String) {l : List String} {a b c : String} {post : List String}
    (h : l = pre ++ a :: b :: c :: post) : SubStr (a ++ b ++ c) (concatStrs l) := by
  have h2 : l = pre ++ [a, b, c] ++ post := by rw [h]; simp
  have h3 : concatStrs [a, b, c] = a ++ b ++ c := by
    show a ++ (b ++ (c ++ "")) = a ++ b ++ c
    rw [String.append_empty, strAppend_assoc]
  rw [h2]
  rw [← h3]
  exact substr_concat_middle pre [a, b, c] post

lemma substr_prompt {x : String} (payload : Option HistoPayload)
    (h : SubStr x (patientHistory payload)) : SubStr x (promptText payload) := by
  unfold promptText
  exact substr_appR _ (substr_appL _ h)

lemma optEnum_mem {path : String} {al : List String} {v : String}
    (h : optEnumIssue path al (some v) = []) : v ∈ al := by
  unfold optEnumIssue at h
  by_cases hm : v ∈ al
  · exact hm
  · simp [hm] at h

lemma optEnum_ne_empty {path : String} {al : List String} {v : String}
    (h : optEnumIssue path al (some v) = []) (hal : "" ∉ al) : v ≠ "" := by
  intro hEq
  exact hal (hEq ▸ optEnum_mem h)

lemma substr_optLine_in_chunks {l : List String} {label v : String} {o : Option String}
    (hv : o = some v) (hne : v ≠ "") (hmem : optLine label o ∈ l) :
    SubStr (label ++ v) (concatStrs l) := by
  have hchunk : optLine label o = label ++ v := by simp [optLine, hv, hne]
  rw [← hchunk]
  exact substr_of_mem hmem

lemma substr_arrLine_in_chunks {l : List String} {label : String}
    {o : Option (List String)} {xs : List String}
    (hv : o = some xs) (hne : xs ≠ []) (hmem : arrLine label o ∈ l) :
    SubStr (label ++ String.intercalate ", " xs) (concatStrs l) := by
  have hchunk : arrLine label o = label ++ String.intercalate ", " xs := by
    simp [arrLine, hv, List.isEmpty_iff, hne]
  rw [← hchunk]
  exact substr_of_mem hmem

lemma substr_boolLine_in_chunks {l : List String} {label : String}
    {o : Option Bool} {b : Bool}
    (hv : o = some b) (hmem : boolLine label o ∈ l) :
    SubStr (label ++ (if b then "Yes" else "No")) (concatStrs l) := by
  have hchunk : boolLine label o = label ++ (if b then "Yes" else "No") := by
    simp [boolLine, hv]
  rw [← hchunk]
  exact substr_of_mem hmem

lemma substr_history {h : HistoPayload} {x : String}
    (hx : SubStr x (concatStrs (historyChunks h))) : SubStr x (promptText (some h)) :=
  substr_prompt (some h) hx

lemma substr_additional {h : HistoPayload} {a : AdditionalPayload} {x : String}
    (ha : h.additionalData = some a) (hx : SubStr x (concatStrs (additionalChunks a))) :
    SubStr x (promptText (some h)) := by
  apply substr_history
  have hmem : additionalBlockStr h.additionalData ∈ historyChunks h := by simp [historyChunks]
  refine substr_trans ?_ (substr_of_mem hmem)
  rw [ha]
  exact hx

/-! ## Claim theorems -/

/-- Claim C1: the spec requires that a structurally invalid patient-history
payload be rejected with a 400 naming the offending field before any model
call, and `histopathologicalSchema` (declared directly above the handler)
indeed rejects such a payload naming the offending path — but the handler
never invokes the schema: on a payload whose `tobacco` is outside its enum
it proceeds straight to the model call and issues no 400. -/
theorem analyze_skips_validation :
    histopathologicalSchemaCheck invalidHistory = Except.error "tobacco" ∧
    analyzeHandlerPre (some "img") (some invalidHistory) =
      AnalyzePre.callModel (promptText (some invalidHistory)) ∧
    (analyzeHandlerPre (some "img") (some invalidHistory)).isBadRequest = false :=
  ⟨rfl, rfl, rfl⟩

/-- Claim C2: for every response text that contains none of the three
sentinels `CONFIDENCE_LEVEL:`, `RISK_LEVEL:`, `ANALYSIS:`, the response
parser yields confidence 0, risk `"UNKNOWN"`, and analysis equal to the
entire raw response text. -/
theorem parse_missing_sentinels_defaults (s : String)
    (h1 : containsCI "CONFIDENCE_LEVEL:" s = false)
    (h2 : containsCI "RISK_LEVEL:" s = false)
    (h3 : containsCI "ANALYSIS:" s = false) :
    parseAnalysis s = { confidence := 0, risk := "UNKNOWN", analysis := s } := by
  have e1 : firstMatch (matchLitCI "CONFIDENCE_LEVEL:".data) s.data = none := by
    revert h1; unfold containsCI
    cases firstMatch (matchLitCI "CONFIDENCE_LEVEL:".data) s.data <;> simp
  have e2 : firstMatch (matchLitCI "RISK_LEVEL:".data) s.data = none := by
    revert h2; unfold containsCI
    cases firstMatch (matchLitCI "RISK_LEVEL:".data) s.data <;> simp
  have e3 : firstMatch (matchLitCI "ANALYSIS:".data) s.data = none := by
    revert h3; unfold containsCI
    cases firstMatch (matchLitCI "ANALYSIS:".data) s.data <;> simp
  have c1 : firstMatch confidenceAt s.data = none :=
    firstMatch_none_of_lit_none _ _ (fun p hp => by simp [confidenceAt, hp]) _ e1
  have c2 : firstMatch riskAt s.data = none :=
    firstMatch_none_of_lit_none _ _ (fun p hp => by simp [riskAt, hp]) _ e2
  have c3 : firstMatch analysisAt s.data = none :=
    firstMatch_none_of_lit_none _ _ (fun p hp => by simp [analysisAt, hp]) _ e3
  simp [parseAnalysis, c1, c2, c3]

/-- Witness for C2 at the concrete sentinel-free response text `"hello"`. -/
theorem parse_missing_sentinels_defaults_witness :
    containsCI "CONFIDENCE_LEVEL:" "hello" = false ∧
    containsCI "RISK_LEVEL:" "hello" = false ∧
    containsCI "ANALYSIS:" "hello" = false ∧
    parseAnalysis "hello" = { confidence := 0, risk := "UNKNOWN", analysis := "hello" } :=
  ⟨by decide, by decide, by decide,
    parse_missing_sentinels_defaults "hello" (by decide) (by decide) (by decide)⟩

/-- Claim C3: on `CONFIDENCE_LEVEL: 82%`, `RISK_LEVEL: HIGH`, `ANALYSIS: foo`
the parser yields confidence 82, risk `"HIGH"`, analysis `"foo"`; the risk
sentinel is matched case-insensitively (a lower-case `risk_level: high` still
yields `"HIGH"`), and the first match of each sentinel wins. -/
theorem parse_sentinel_triple :
    parseAnalysis "CONFIDENCE_LEVEL: 82%\nRISK_LEVEL: HIGH\nANALYSIS: foo" =
      { confidence := 82, risk := "HIGH", analysis := "foo" } ∧
    (parseAnalysis "risk_level: high").risk = "HIGH" ∧
    (parseAnalysis "CONFIDENCE_LEVEL: 10%\nCONFIDENCE_LEVEL: 99%\nRISK_LEVEL: LOW\nRISK_LEVEL: HIGH").confidence = 10 ∧
    (parseAnalysis "CONFIDENCE_LEVEL: 10%\nCONFIDENCE_LEVEL: 99%\nRISK_LEVEL: LOW\nRISK_LEVEL: HIGH").risk = "LOW" := by
  refine ⟨by decide, by decide, by decide, by decide⟩

/-- Claim C4 (counterexample): in production mode
(`nodeEnvProduction := true`), with a JWT verifier that rejects every token
and an empty user store, a request bearing the literal development token is
still accepted with the fixed identity — it is not rejected with 401.  The
middleware has no production-mode branch at all. -/
theorem dev_token_accepted_in_production :
    authenticateTokenInEnv { nodeEnvProduction := true } (fun _ => none) (fun _ => false)
      (some "Bearer dev-token") =
      AuthResult.accept [("userId", "1"), ("email", "test@example.com")] := by
  decide

/-- Claim C4 as amended: the middleware accepts the literal development
bearer token unconditionally — in every server environment, production
included, and regardless of the JWT verifier and user store — attaching the
fixed identity `userId = "1"`, `email = "test@example.com"`. -/
theorem dev_token_accepted_unconditionally (env : ServerEnv)
    (verify : String → Option (String × String)) (userExists : String → Bool) :
    authenticateTokenInEnv env verify userExists (some "Bearer dev-token") =
      AuthResult.accept [("userId", "1"), ("email", "test@example.com")] := rfl

/-- Claim C5 (counterexample): two authentication failures — a missing
token and an invalid signature — both yield status 401 but with distinct
response bodies ("Authentication required" vs "Invalid token"), so the
failure cause is exposed to the caller. -/
theorem auth_failure_bodies_distinguish_causes :
    authenticateToken (fun _ => none) (fun _ => false) none =
      AuthResult.reject 401 "Authentication required" ∧
    authenticateToken (fun _ => none) (fun _ => false) (some "Bearer sometoken") =
      AuthResult.reject 401 "Invalid token" ∧
    authenticateToken (fun _ => some ("u7", "a@b.c")) (fun _ => false) (some "Bearer sometoken") =
      AuthResult.reject 401 "User not found" ∧
    ("Authentication required" : String) ≠ "Invalid token" := by
  refine ⟨by decide, by decide, by decide, by decide⟩

/-- Claim C5 as amended: every authentication failure — missing token,
invalid signature, or unknown user — is rejected with the uniform HTTP
status 401, but the JSON error message differs by cause ("Authentication
required", "Invalid token", "User not found"), so the distinction between
causes is exposed in the response body. -/
theorem auth_failures_uniform_401_status (verify : String → Option (String × String))
    (userExists : String → Bool) (authHeader : Option String) (s : Nat) (e : String)
    (h : authenticateToken verify userExists authHeader = AuthResult.reject s e) :
    s = 401 ∧
    (e = "Authentication required" ∨ e = "Invalid token" ∨ e = "User not found") := by
  unfold authenticateToken at h
  cases hb : authHeader.bind (fun h => ((splitOnChar ' ' h.data).get? 1).map String.mk) with
  | none => rw [hb] at h; simp_all
  | some t =>
    rw [hb] at h
    simp only at h
    by_cases ht : t = ""
    · simp [ht] at h; simp_all
    · simp only [ht, if_false] at h
      by_cases hd : t = "dev-token"
      · simp [hd] at h
      · simp only [hd, if_false] at h
        cases hv : verify t with
        | none => rw [hv] at h; simp_all
        | some p =>
          rw [hv] at h
          by_cases hu : userExists p.1
          · simp [hu] at h
          · simp [hu] at h; simp_all

/-- Witness for the amended C5 at a concrete failing request (missing
Authorization header). -/
theorem auth_failures_uniform_401_status_witness :
    (401 : Nat) = 401 ∧
    ("Authentication required" = "Authentication required" ∨
      "Authentication required" = "Invalid token" ∨
      "Authentication required" = "User not found") :=
  auth_failures_uniform_401_status (fun _ => none) (fun _ => false) none
    401 "Authentication required" (by decide)

/-- Claim C6: each Scan created by the asynchronous endpoint starts in the
PROCESSING state and its status transitions at most once, to a terminal
state (COMPLETED or FAILED); it never reverts to a non-terminal state. -/
theorem scan_status_single_transition (analyzeOk : Bool) (updateOk : ScanStatus → Bool) :
    ∃ rest, scanStatusHistory analyzeOk updateOk = ScanStatus.processing :: rest ∧
      rest.length ≤ 1 ∧ ∀ s ∈ rest, s.isTerminal = true := by
  refine ⟨_, rfl, ?_, ?_⟩ <;>
    (cases analyzeOk <;> by_cases h1 : updateOk .completed <;> by_cases h2 : updateOk .failed <;>
      simp [h1, h2, ScanStatus.isTerminal])

/-- Claim C8: the parser applies no range validation to the confidence:
on `CONFIDENCE_LEVEL: 250%` it returns 250 unclamped. -/
theorem parse_confidence_unclamped :
    (parseAnalysis "CONFIDENCE_LEVEL: 250%").confidence = 250 ∧
    100 < (parseAnalysis "CONFIDENCE_LEVEL: 250%").confidence := by
  refine ⟨by decide, by decide⟩

/-- Claim C9: for an authenticated user `uid` and a patient id `pid` whose
rows all belong to a different user, the update and delete operations fail
(no row matched, nothing modified) instead of touching the other user's
record. -/
theorem foreign_patient_update_delete_fails (db : List Patient) (pid uid : String)
    (data : PatientFields) (h : ∀ p ∈ db, p.id = pid → p.doctorId ≠ uid) :
    updatePatient db pid uid data = none ∧ deletePatient db pid uid = none := by
  have hany : db.any (matchesWhere pid uid) = false := by
    rw [List.any_eq_false]
    intro p hp
    simp only [matchesWhere, Bool.and_eq_true, decide_eq_true_eq, not_and]
    exact fun hid => h p hp hid
  exact ⟨by simp [updatePatient, hany], by simp [deletePatient, hany]⟩

/-- Witness for C9: a one-row table owned by `doc2`; user `doc1` can
neither update nor delete that row. -/
theorem foreign_patient_update_delete_fails_witness :
    updatePatient
        [{ id := "p1", doctorId := "doc2",
           fields := { name := "A", age := 40, gender := "F", contactNumber := "1",
                       email := "a@b.c", smoking := false, tobacco := false,
                       panMasala := false, medicalHistory := "none" } }]
        "p1" "doc1"
        { name := "B", age := 41, gender := "F", contactNumber := "2",
          email := "a@b.c", smoking := true, tobacco := false,
          panMasala := false, medicalHistory := "none" } = none ∧
    deletePatient
        [{ id := "p1", doctorId := "doc2",
           fields := { name := "A", age := 40, gender := "F", contactNumber := "1",
                       email := "a@b.c", smoking := false, tobacco := false,
                       panMasala := false, medicalHistory := "none" } }]
        "p1" "doc1" = none :=
  foreign_patient_update_delete_fails _ "p1" "doc1" _ (by decide)

/-- Claim C10: the scans handlers read `req.user?.id`, but the auth
middleware only ever attaches an object with properties `userId` and
`email` (never `id`); hence whenever the middleware accepts a request and
attaches its user object, `GET /api/scans` and `POST /api/scans` still
respond 401 "Not authenticated". -/
theorem scans_routes_always_401 (verify : String → Option (String × String))
    (userExists : String → Bool) (authHeader : Option String)
    (u : List (String × String))
    (h : authenticateToken verify userExists authHeader = AuthResult.accept u) :
    scansGetGuard (some u) = HandlerOutcome.earlyError 401 "Not authenticated" ∧
    scansCreateGuard (some u) = HandlerOutcome.earlyError 401 "Not authenticated" := by
  have hu : getProp u "id" = none := by
    unfold authenticateToken at h
    cases hb : authHeader.bind (fun h => ((splitOnChar ' ' h.data).get? 1).map String.mk) with
    | none => rw [hb] at h; simp_all
    | some t =>
      rw [hb] at h
      simp only at h
      by_cases ht : t = ""
      · simp [ht] at h
      · simp only [ht, if_false] at h
        by_cases hd : t = "dev-token"
        · simp only [hd, if_true, AuthResult.accept.injEq] at h
          subst h; decide
        · simp only [hd, if_false] at h
          cases hv : verify t with
          | none => rw [hv] at h; simp_all
          | some p =>
            rw [hv] at h
            by_cases he : userExists p.1
            · simp only [he, if_true, AuthResult.accept.injEq] at h
              subst h; simp [getProp, List.find?]
            · simp [he] at h
  constructor
  · simp [scansGetGuard, hu]
  · simp [scansCreateGuard, scansGetGuard, hu]

/-- Witness for C10: a concrete request whose dev token the middleware
accepts, on which both scans handlers still answer 401. -/
theorem scans_routes_always_401_witness :
    scansGetGuard (some [("userId", "1"), ("email", "test@example.com")]) =
      HandlerOutcome.earlyError 401 "Not authenticated" ∧
    scansCreateGuard (some [("userId", "1"), ("email", "test@example.com")]) =
      HandlerOutcome.earlyError 401 "Not authenticated" :=
  scans_routes_always_401 (fun _ => none) (fun _ => false) (some "Bearer dev-token")
    [("userId", "1"), ("email", "test@example.com")] (by decide)

/-- Claim C7 (counterexample): on a valid payload with every optional field
absent, the absent fields are not omitted entirely — each leaves an empty
line, so the Clinical Symptoms header is followed by seven consecutive
empty lines (eight newlines) before the Medical History header.  Had the
absent fields been omitted entirely, at most the single blank separator
line of the template would remain between the two headers. -/
theorem prompt_blank_lines_for_absent_fields :
    schemaIssues minimalHistory = [] ∧
    minimalHistory.painLevel = none ∧
    SubStr ("Clinical Symptoms:" ++ "\n\n\n\n\n\n\n\n" ++ "Medical History:")
      (promptText (some minimalHistory)) := by
  refine ⟨by decide, rfl, substr_prompt _ ?_⟩
  set_option maxRecDepth 16384 in decide

/-- Claim C7 as amended: for every valid patient-history payload, the
composed prompt includes the label and value of every present field (for
free-string and array fields of the additional block: every present
nonempty field, matching the template's truthiness test), and for each
absent optional field the label is omitted but the field's line renders as
an empty line — witnessed here by the empty line that directly follows the
Clinical Symptoms header when `painLevel` is absent and the Medical History
header when `familyHistory` is absent. -/
theorem prompt_renders_present_fields (h : HistoPayload) (hvalid : schemaIssues h = []) :
    (∀ v, h.age = some v → SubStr ("- Age: " ++ v) (promptText (some h))) ∧
    (∀ v, h.tobacco = some v → SubStr ("- Tobacco Use: " ++ v) (promptText (some h))) ∧
    (∀ v, h.smoking = some v → SubStr ("- Smoking History: " ++ v) (promptText (some h))) ∧
    (∀ v, h.panMasala = some v →
      SubStr ("- Pan Masala/Areca Nut Use: " ++ v) (promptText (some h))) ∧
    (∀ v, h.symptomDuration = some v →
      SubStr ("- Duration of Symptoms: " ++ v) (promptText (some h))) ∧
    (∀ v, h.painLevel = some v → SubStr ("- Pain Level: " ++ v) (promptText (some h))) ∧
    (∀ v, h.difficultySwallowing = some v →
      SubStr ("- Difficulty Swallowing: " ++ v) (promptText (some h))) ∧
    (∀ v, h.weightLoss = some v →
      SubStr ("- Unexplained Weight Loss: " ++ v) (promptText (some h))) ∧
    (∀ v, h.persistentSoreThroat = some v →
      SubStr ("- Persistent Sore Throat: " ++ v) (promptText (some h))) ∧
    (∀ v, h.voiceChanges = some v → SubStr ("- Voice Changes: " ++ v) (promptText (some h))) ∧
    (∀ v, h.lumpsInNeck = some v → SubStr ("- Lumps in Neck: " ++ v) (promptText (some h))) ∧
    (∀ v, h.familyHistory = some v →
      SubStr ("- Family History of Oral Cancer: " ++ v) (promptText (some h))) ∧
    (∀ v, h.immuneCompromised = some v →
      SubStr ("- Compromised Immune System: " ++ v) (promptText (some h))) ∧
    (∀ v, h.frequentMouthSores = some v →
      SubStr ("- Frequent Mouth Sores: " ++ v) (promptText (some h))) ∧
    (∀ v, h.poorDentalHygiene = some v →
      SubStr ("- Poor Dental Hygiene: " ++ v) (promptText (some h))) ∧
    (∀ a, h.additionalData = some a →
      (∀ v, a.lesionLocation = some v →
        SubStr ("- Lesion Location: " ++ v) (promptText (some h))) ∧
      (∀ v, a.lesionDuration = some v → v ≠ "" →
        SubStr ("- Lesion Duration: " ++ v) (promptText (some h))) ∧
      (∀ v, a.lesionGrowthRate = some v →
        SubStr ("- Lesion Growth Rate: " ++ v) (promptText (some h))) ∧
      (∀ xs, a.previousOralConditions = some xs → xs ≠ [] →
        SubStr ("- Previous Oral Conditions: " ++ String.intercalate ", " xs)
          (promptText (some h))) ∧
      (∀ xs, a.medications = some xs → xs ≠ [] →
        SubStr ("- Current Medications: " ++ String.intercalate ", " xs)
          (promptText (some h))) ∧
      (∀ v, a.alcoholConsumption = some v →
        SubStr ("- Alcohol Consumption: " ++ v) (promptText (some h))) ∧
      (∀ v, a.occupation = some v → v ≠ "" →
        SubStr ("- Occupation: " ++ v) (promptText (some h))) ∧
      (∀ xs, a.dietaryHabits = some xs → xs ≠ [] →
        SubStr ("- Dietary Habits: " ++ String.intercalate ", " xs) (promptText (some h))) ∧
      (∀ v, a.oralHygiene = some v → SubStr ("- Oral Hygiene: " ++ v) (promptText (some h))) ∧
      (∀ b, a.recentDentalWork = some b →
        SubStr ("- Recent Dental Work: " ++ (if b then "Yes" else "No"))
          (promptText (some h))) ∧
      (∀ v, a.lastDentalVisit = some v → v ≠ "" →
        SubStr ("- Last Dental Visit: " ++ v) (promptText (some h)))) ∧
    (h.painLevel = none → SubStr "Clinical Symptoms:\n\n" (promptText (some h))) ∧
    (h.familyHistory = none → SubStr "Medical History:\n\n" (promptText (some h))) := by
  have hparts := hvalid
  simp only [schemaIssues, List.append_eq_nil, and_assoc] at hparts
  obtain ⟨hIAge, hITob, hISmo, hIPan, hISym, hIPain, hIDiff, hIWei, hIFam, hIImm, hISore,
    hIVoi, hILum, hIFre, hIPoo, hIAdd⟩ := hparts
  refine ⟨?_, ?_, ?_, ?_, ?_, ?_, ?_, ?_, ?_, ?_, ?_, ?_, ?_, ?_, ?_, ?_, ?_, ?_⟩
  · intro v hv
    apply substr_history
    have hj : jsInterp h.age = v := by rw [hv]; rfl
    rw [← hj]
    exact substr_pair ["\nPatient Information:\nPrimary Risk Factors:\n"] rfl
  · intro v hv
    apply substr_history
    have hj : jsInterp h.tobacco = v := by rw [hv]; rfl
    rw [← hj]
    exact substr_pair ["\nPatient Information:\nPrimary Risk Factors:\n",
      "- Age: ", jsInterp h.age, "\n"] rfl
  · intro v hv
    apply substr_history
    have hj : jsInterp h.smoking = v := by rw [hv]; rfl
    rw [← hj]
    exact substr_pair ["\nPatient Information:\nPrimary Risk Factors:\n",
      "- Age: ", jsInterp h.age, "\n", "- Tobacco Use: ", jsInterp h.tobacco, "\n"] rfl
  · intro v hv
    apply substr_history
    have hj : jsInterp h.panMasala = v := by rw [hv]; rfl
    rw [← hj]
    exact substr_pair ["\nPatient Information:\nPrimary Risk Factors:\n",
      "- Age: ", jsInterp h.age, "\n", "- Tobacco Use: ", jsInterp h.tobacco, "\n",
      "- Smoking History: ", jsInterp h.smoking, "\n"] rfl
  · intro v hv
    apply substr_history
    have hj : jsInterp h.symptomDuration = v := by rw [hv]; rfl
    rw [← hj]
    exact substr_pair ["\nPatient Information:\nPrimary Risk Factors:\n",
      "- Age: ", jsInterp h.age, "\n", "- Tobacco Use: ", jsInterp h.tobacco, "\n",
      "- Smoking History: ", jsInterp h.smoking, "\n",
      "- Pan Masala/Areca Nut Use: ", jsInterp h.panMasala, "\n"] rfl
  · intro v hv
    rw [hv] at hIPain
    exact substr_history
      (substr_optLine_in_chunks hv (optEnum_ne_empty hIPain (by decide))
        (by simp [historyChunks]))
  · intro v hv
    rw [hv] at hIDiff
    exact substr_history
      (substr_optLine_in_chunks hv (optEnum_ne_empty hIDiff (by decide))
        (by simp [historyChunks]))
  · intro v hv
    rw [hv] at hIWei
    exact substr_history
      (substr_optLine_in_chunks hv (optEnum_ne_empty hIWei (by decide))
        (by simp [historyChunks]))
  · intro v hv
    rw [hv] at hISore
    exact substr_history
      (substr_optLine_in_chunks hv (optEnum_ne_empty hISore (by decide))
        (by simp [historyChunks]))
  · intro v hv
    rw [hv] at hIVoi
    exact substr_history
      (substr_optLine_in_chunks hv (optEnum_ne_empty hIVoi (by decide))
        (by simp [historyChunks]))
  · intro v hv
    rw [hv] at hILum
    exact substr_history
      (substr_optLine_in_chunks hv (optEnum_ne_empty hILum (by decide))
        (by simp [historyChunks]))
  · intro v hv
    rw [hv] at hIFam
    exact substr_history
      (substr_optLine_in_chunks hv (optEnum_ne_empty hIFam (by decide))
        (by simp [historyChunks]))
  · intro v hv
    rw [hv] at hIImm
    exact substr_history
      (substr_optLine_in_chunks hv (optEnum_ne_empty hIImm (by decide))
        (by simp [historyChunks]))
  · intro v hv
    rw [hv] at hIFre
    exact substr_history
      (substr_optLine_in_chunks hv (optEnum_ne_empty hIFre (by decide))
        (by simp [historyChunks]))
  · intro v hv
    rw [hv] at hIPoo
    exact substr_history
      (substr_optLine_in_chunks hv (optEnum_ne_empty hIPoo (by decide))
        (by simp [historyChunks]))
  · intro a ha
    rw [ha] at hIAdd
    simp only [additionalIssues, List.append_eq_nil, and_assoc] at hIAdd
    obtain ⟨hALoc, hAGro, hAAlc, hAOra⟩ := hIAdd
    refine ⟨?_, ?_, ?_, ?_, ?_, ?_, ?_, ?_, ?_, ?_, ?_⟩
    · intro v hv
      rw [hv] at hALoc
      exact substr_additional ha
        (substr_optLine_in_chunks hv (optEnum_ne_empty hALoc (by decide))
          (by simp [additionalChunks]))
    · intro v hv hne
      exact substr_additional ha
        (substr_optLine_in_chunks hv hne (by simp [additionalChunks]))
    · intro v hv
      rw [hv] at hAGro
      exact substr_additional ha
        (substr_optLine_in_chunks hv (optEnum_ne_empty hAGro (by decide))
          (by simp [additionalChunks]))
    · intro xs hv hne
      exact substr_additional ha
        (substr_arrLine_in_chunks hv hne (by simp [additionalChunks]))
    · intro xs hv hne
      exact substr_additional ha
        (substr_arrLine_in_chunks hv hne (by simp [additionalChunks]))
    · intro v hv
      rw [hv] at hAAlc
      exact substr_additional ha
        (substr_optLine_in_chunks hv (optEnum_ne_empty hAAlc (by decide))
          (by simp [additionalChunks]))
    · intro v hv hne
      exact substr_additional ha
        (substr_optLine_in_chunks hv hne (by simp [additionalChunks]))
    · intro xs hv hne
      exact substr_additional ha
        (substr_arrLine_in_chunks hv hne (by simp [additionalChunks]))
    · intro v hv
      rw [hv] at hAOra
      exact substr_additional ha
        (substr_optLine_in_chunks hv (optEnum_ne_empty hAOra (by decide))
          (by simp [additionalChunks]))
    · intro b hb
      exact substr_additional ha
        (substr_boolLine_in_chunks hb (by simp [additionalChunks]))
    · intro v hv hne
      exact substr_additional ha
        (substr_optLine_in_chunks hv hne (by simp [additionalChunks]))
  · intro hnone
    apply substr_history
    have htriple := substr_triple (l := historyChunks h)
      ["\nPatient Information:\nPrimary Risk Factors:\n",
       "- Age: ", jsInterp h.age, "\n", "- Tobacco Use: ", jsInterp h.tobacco, "\n",
       "- Smoking History: ", jsInterp h.smoking, "\n",
       "- Pan Masala/Areca Nut Use: ", jsInterp h.panMasala, "\n",
       "- Duration of Symptoms: ", jsInterp h.symptomDuration] rfl
    have heq : "\n\nClinical Symptoms:\n" ++ optLine "- Pain Level: " h.painLevel ++ "\n" =
        "\n\nClinical Symptoms:\n\n" := by rw [hnone]; decide
    rw [heq] at htriple
    exact substr_trans (by decide) htriple
  · intro hnone
    apply substr_history
    have htriple := substr_triple (l := historyChunks h)
      ["\nPatient Information:\nPrimary Risk Factors:\n",
       "- Age: ", jsInterp h.age, "\n", "- Tobacco Use: ", jsInterp h.tobacco, "\n",
       "- Smoking History: ", jsInterp h.smoking, "\n",
       "- Pan Masala/Areca Nut Use: ", jsInterp h.panMasala, "\n",
       "- Duration of Symptoms: ", jsInterp h.symptomDuration, "\n\nClinical Symptoms:\n",
       optLine "- Pain Level: " h.painLevel, "\n",
       optLine "- Difficulty Swallowing: " h.difficultySwallowing, "\n",
       optLine "- Unexplained Weight Loss: " h.weightLoss, "\n",
       optLine "- Persistent Sore Throat: " h.persistentSoreThroat, "\n",
       optLine "- Voice Changes: " h.voiceChanges, "\n",
       optLine "- Lumps in Neck: " h.lumpsInNeck, "\n"] rfl
    have heq : "\nMedical History:\n" ++
        optLine "- Family History of Oral Cancer: " h.familyHistory ++ "\n" =
        "\nMedical History:\n\n" := by rw [hnone]; decide
    rw [heq] at htriple
    exact substr_trans (by decide) htriple

/-- Witness for the amended C7: the fully-populated payload shows present
labels in the prompt; the minimal payload shows the empty line left by the
absent pain-level field. -/
theorem prompt_renders_present_fields_witness :
    schemaIssues fullHistory = [] ∧
    schemaIssues minimalHistory = [] ∧
    SubStr ("- Age: " ++ "60") (promptText (some fullHistory)) ∧
    SubStr ("- Pain Level: " ++ "Mild") (promptText (some fullHistory)) ∧
    SubStr ("- Lesion Location: " ++ "Tongue") (promptText (some fullHistory)) ∧
    SubStr "Clinical Symptoms:\n\n" (promptText (some minimalHistory)) := by
  have h1 := prompt_renders_present_fields fullHistory (by decide)
  have h2 := prompt_renders_present_fields minimalHistory (by decide)
  obtain ⟨hAge, -, -, -, -, hPain, -, -, -, -, -, -, -, -, -, hAdd, -, -⟩ := h1
  obtain ⟨-, -, -, -, -, -, -, -, -, -, -, -, -, -, -, -, hPainNone, -⟩ := h2
  refine ⟨by decide, by decide, hAge "60" rfl, hPain "Mild" rfl, ?_, hPainNone rfl⟩
  exact (hAdd _ rfl).1 "Tongue" rfl

end OralScan
